import Mathlib

/-
  Verification development for the koa-chart-binance overlay system.

  Shallow embedding conventions:
  * JavaScript float64 numbers are embedded as rationals; every arithmetic
    operation used by the verified claims (addition, subtraction, comparison,
    min, max, division with an explicit zero guard) is exact on the inputs
    the claims mention.
  * A JavaScript division whose denominator may be zero is embedded through
    the JSVal type, which mirrors the IEEE special values Infinity, -Infinity
    and NaN produced by the engine.
  * Missing ("null") option values are embedded as Option; the coercion of
    null to 0 that JavaScript performs inside numeric expressions (and hence
    inside a d3 linear scale) is the function jsToNumber.
  * Code that can throw is embedded in the Except monad.
  * DOM state mutated by a plugin (element visibility, positions, label
    content) is carried in an explicit per-plugin state record; event
    handlers become state transition functions and an event loop becomes a
    fold over a list of events.
-/

namespace KoaChart

/-- One point of the chronological price series produced by the chart
renderer (chart.lastData in the source). -/
structure Point where
  timestamp : Int
  price : ℚ
deriving DecidableEq, Repr

/-- The read-only chart context that every plugin consumes: plot dimensions,
margins, the container bounding box, the y scale and its inverse, and the
current series.  scale embeds chart.y, invert embeds chart.y.invert,
containerTop and containerHeight embed container.getBoundingClientRect(). -/
structure ChartCtx where
  marginTop : ℚ
  marginBottom : ℚ
  marginLeft : ℚ
  marginRight : ℚ
  width : ℚ
  height : ℚ
  containerTop : ℚ
  containerHeight : ℚ
  containerWidth : ℚ
  scale : ℚ → ℚ
  invert : ℚ → ℚ
  lastData : List Point

/-- Result of a JavaScript floating point computation that may hit a zero
denominator: a finite number, Infinity, -Infinity or NaN. -/
inductive JSVal where
  | num (q : ℚ)
  | posInf
  | negInf
  | nan
deriving DecidableEq, Repr

/-- JavaScript division a / b: a zero denominator yields Infinity, -Infinity
or NaN according to the sign of the numerator. -/
def jsDiv (a b : ℚ) : JSVal :=
  if b = 0 then
    if 0 < a then JSVal.posInf else if a < 0 then JSVal.negInf else JSVal.nan
  else JSVal.num (a / b)

/-- JavaScript multiplication of a possibly infinite value by a finite
constant. -/
def jsMul (v : JSVal) (c : ℚ) : JSVal :=
  match v with
  | JSVal.num q => JSVal.num (q * c)
  | JSVal.posInf => if 0 < c then JSVal.posInf else if c < 0 then JSVal.negInf else JSVal.nan
  | JSVal.negInf => if 0 < c then JSVal.negInf else if c < 0 then JSVal.posInf else JSVal.nan
  | JSVal.nan => JSVal.nan

/-- JavaScript coercion of a possibly-null number to a number inside an
arithmetic expression: null coerces to 0.  In particular a d3 linear scale
applied to null returns the same pixel as the scale applied to 0, because the
scale computes (x - d0) / (d1 - d0) with x coerced. -/
def jsToNumber : Option ℚ → ℚ
  | none => 0
  | some q => q

/-- Rounding used by Number.prototype.toFixed: the integer n minimising the
distance to the argument, ties resolved to the larger n (ECMA-262). -/
def jsToFixedRound (q : ℚ) : ℤ :=
  ⌊q + 1 / 2⌋

/-- Left-pads a digit string with zeros to the requested width. -/
def zeroPad (s : String) (d : ℕ) : String :=
  String.mk (List.replicate (d - s.length) '0') ++ s

/-- Embedding of Number.prototype.toFixed(d) on an exact rational value. -/
def ratToFixed (q : ℚ) (d : ℕ) : String :=
  let n : ℤ := jsToFixedRound (q * (10 : ℚ) ^ d)
  let sign := if n < 0 then "-" else ""
  let a := n.natAbs
  if d = 0 then sign ++ toString a
  else sign ++ toString (a / 10 ^ d) ++ "." ++ zeroPad (toString (a % 10 ^ d)) d

/-- ChartUtils.formatPercent from src/public/utils.js: a leading plus sign
for non-negative values, toFixed(decimals), then a percent sign. -/
def chartFormatPercent (percent : ℚ) (decimals : ℕ) : String :=
  (if 0 ≤ percent then "+" else "") ++ ratToFixed percent decimals ++ "%"

/-- ChartUtils.formatPrice from src/public/utils.js.  The magnitude test
chooses 4, 3, 2 or 0 decimals from the size of the price; a null price
reaches price.toFixed and throws a TypeError, embedded as the error case. -/
def chartFormatPrice : Option ℚ → Except String String
  | none => Except.error "TypeError: Cannot read properties of null"
  | some p =>
    let decimals : ℕ :=
      if p ≤ 0 then 3
      else if p < 1 then 4
      else if p < 10 then 3
      else if p < 100 then 2
      else 0
    Except.ok (ratToFixed p decimals)

/-- ChartUtils.calculatePercentDifference from src/public/utils.js: returns 0
when the reference price is 0, otherwise the relative difference in percent. -/
def calculatePercentDifference (price1 price2 : ℚ) : ℚ :=
  if price2 = 0 then 0 else ((price1 - price2) / price2) * 100

/-- PriceGuidePlugin._calculatePercentDifference from
src/public/chart-plugins/price-guide.js, an identical private copy of the
shared helper. -/
def guideCalculatePercentDifference (price1 price2 : ℚ) : ℚ :=
  if price2 = 0 then 0 else ((price1 - price2) / price2) * 100

/-- The _isInChartArea check shared by the overlays: a container-relative y
is inside the plot area when margin.top <= y <= containerHeight -
margin.bottom. -/
def isInChartArea (c : ChartCtx) (y : ℚ) : Bool :=
  decide (c.marginTop ≤ y) && decide (y ≤ c.containerHeight - c.marginBottom)

/-- The unguarded percent-span computation of
PriceRangePlugin._updateRangeDisplay (src/unnamed/part_003 lines 277-278):
percentDiff = (|topPrice - bottomPrice| / bottomPrice) * 100, a plain
JavaScript division with no zero guard. -/
def rangePercentDiff (topPrice bottomPrice : ℚ) : JSVal :=
  jsMul (jsDiv |topPrice - bottomPrice| bottomPrice) 100

end KoaChart

namespace KoaChart.PriceRange

/-- Mutable state of PriceRangePlugin (src/unnamed/part_003) together with
the enabled flag of the PriceGuidePlugin it coordinates with through the
plugin manager.  The four Visible flags embed the display style of the zone,
the two edge labels and the percent label. -/
structure RangeState where
  rmEnabled : Bool
  isDragging : Bool
  startY : ℚ
  endY : ℚ
  zoneVisible : Bool
  zoneTop : ℚ
  zoneHeight : ℚ
  topLabelVisible : Bool
  topLabelY : ℚ
  topLabelPrice : ℚ
  bottomLabelVisible : Bool
  bottomLabelY : ℚ
  bottomLabelPrice : ℚ
  percentVisible : Bool
  percentY : ℚ
  percentValue : JSVal
  priceGuideEnabled : Bool
deriving DecidableEq, Repr

/-- Initial state after construction and init: nothing dragging, every
element hidden; the PriceGuidePlugin may start enabled or independently
disabled. -/
def rangeInit (pg : Bool) : RangeState where
  rmEnabled := true
  isDragging := false
  startY := 0
  endY := 0
  zoneVisible := false
  zoneTop := 0
  zoneHeight := 0
  topLabelVisible := false
  topLabelY := 0
  topLabelPrice := 0
  bottomLabelVisible := false
  bottomLabelY := 0
  bottomLabelPrice := 0
  percentVisible := false
  percentY := 0
  percentValue := JSVal.num 0
  priceGuideEnabled := pg

/-- PriceRangePlugin._updateRangeDisplay: shows the zone and the two edge
labels from the current drag endpoints, converts the endpoints to prices
through the inverse scale, and shows the percent label only when the pixel
height exceeds 30. -/
def updateRangeDisplay (c : ChartCtx) (s : RangeState) : RangeState :=
  let topY := min s.startY s.endY
  let bottomY := max s.startY s.endY
  let height := bottomY - topY
  let topPrice := c.invert (topY - c.marginTop)
  let bottomPrice := c.invert (bottomY - c.marginTop)
  let pd := rangePercentDiff topPrice bottomPrice
  { s with
    zoneVisible := true
    zoneTop := topY
    zoneHeight := height
    topLabelVisible := true
    topLabelY := topY
    topLabelPrice := topPrice
    bottomLabelVisible := true
    bottomLabelY := bottomY
    bottomLabelPrice := bottomPrice
    percentVisible := if 30 < height then true else false
    percentY := if 30 < height then topY + height / 2 else s.percentY
    percentValue := if 30 < height then pd else s.percentValue }

/-- PriceRangePlugin.clear: hides all four elements, resets the drag flag
and re-enables the PriceGuidePlugin (setEnabled(true) through the plugin
manager, unconditionally). -/
def rangeClear (s : RangeState) : RangeState :=
  { s with
    zoneVisible := false
    topLabelVisible := false
    bottomLabelVisible := false
    percentVisible := false
    isDragging := false
    priceGuideEnabled := true }

/-- PriceRangePlugin._handleMouseDown: a primary-button press inside the
chart area arms the drag, records the start position and disables the
PriceGuidePlugin through the plugin manager. -/
def handleMouseDown (c : ChartCtx) (s : RangeState) (button : ℕ) (clientY : ℚ) : RangeState :=
  if button ≠ 0 then s
  else
    let relativeY := clientY - c.containerTop
    if isInChartArea c relativeY then
      { s with
        isDragging := true
        startY := relativeY
        endY := relativeY
        priceGuideEnabled := false }
    else s

/-- PriceRangePlugin._handleMouseMove: while dragging, clamps the pointer to
the vertical plot bounds, stores it as the new end position and refreshes
the range display. -/
def handleMouseMove (c : ChartCtx) (s : RangeState) (clientY : ℚ) : RangeState :=
  if !s.isDragging then s
  else
    let relativeY :=
      max c.marginTop (min (clientY - c.containerTop) (c.containerHeight - c.marginBottom))
    updateRangeDisplay c { s with endY := relativeY }

/-- PriceRangePlugin._handleMouseUp: records the raw release position; a
span under 5 pixels is treated as a click (clear, which re-enables the
PriceGuidePlugin, then an extra idempotent enable), otherwise the display is
refreshed and the PriceGuidePlugin stays disabled; the drag flag is dropped
either way. -/
def handleMouseUp (c : ChartCtx) (s : RangeState) (clientY : ℚ) : RangeState :=
  if !s.isDragging then s
  else
    let relativeY := clientY - c.containerTop
    let s1 := { s with endY := relativeY }
    let rangeHeight := |s1.endY - s1.startY|
    let s2 :=
      if rangeHeight < 5 then { rangeClear s1 with priceGuideEnabled := true }
      else updateRangeDisplay c s1
    { s2 with isDragging := false }

/-- PriceRangePlugin._handleClick: a click while no drag is in progress
clears the range display. -/
def handleClick (s : RangeState) : RangeState :=
  if !s.isDragging then rangeClear s else s

/-- PriceRangePlugin.setEnabled: propagates the flag; disabling also clears
the range and re-enables the PriceGuidePlugin. -/
def rangeSetEnabled (s : RangeState) (b : Bool) : RangeState :=
  let s1 := { s with rmEnabled := b }
  if !b then { rangeClear s1 with priceGuideEnabled := true } else s1

/-- Events the PriceRangePlugin reacts to. -/
inductive RangeEv where
  | down (button : ℕ) (clientY : ℚ)
  | move (clientY : ℚ)
  | up (clientY : ℚ)
  | click
  | setEnabledEv (b : Bool)

/-- One event-handler dispatch of the PriceRangePlugin. -/
def rangeStep (c : ChartCtx) (s : RangeState) : RangeEv → RangeState
  | RangeEv.down button clientY => handleMouseDown c s button clientY
  | RangeEv.move clientY => handleMouseMove c s clientY
  | RangeEv.up clientY => handleMouseUp c s clientY
  | RangeEv.click => handleClick s
  | RangeEv.setEnabledEv b => rangeSetEnabled s b

/-- A sequence of events dispatched by the event loop. -/
def runRange (c : ChartCtx) (s : RangeState) (evs : List RangeEv) : RangeState :=
  evs.foldl (rangeStep c) s

end KoaChart.PriceRange

namespace KoaChart

/-- A concrete chart used to instantiate theorems: identity scales, a
100-pixel-tall container with 10-pixel vertical margins. -/
def demoChart : ChartCtx where
  marginTop := 10
  marginBottom := 10
  marginLeft := 5
  marginRight := 5
  width := 290
  height := 80
  containerTop := 0
  containerHeight := 100
  containerWidth := 800
  scale := fun p => p
  invert := fun y => y
  lastData := [⟨0, 100⟩]

end KoaChart

namespace KoaChart.PriceRange

/-- While a drag is in progress, pointer moves keep the drag armed and do
not change the recorded start position nor the PriceGuidePlugin flag. -/
theorem range_moves_invariant (c : ChartCtx) (moves : List ℚ) (s : RangeState)
    (h : s.isDragging = true) :
    ((moves.map RangeEv.move).foldl (rangeStep c) s).isDragging = true ∧
    ((moves.map RangeEv.move).foldl (rangeStep c) s).startY = s.startY ∧
    ((moves.map RangeEv.move).foldl (rangeStep c) s).priceGuideEnabled = s.priceGuideEnabled := by
  induction moves generalizing s with
  | nil => simp [h]
  | cons y ys ih =>
    have hstep : (rangeStep c s (RangeEv.move y)).isDragging = true ∧
        (rangeStep c s (RangeEv.move y)).startY = s.startY ∧
        (rangeStep c s (RangeEv.move y)).priceGuideEnabled = s.priceGuideEnabled := by
      simp [rangeStep, handleMouseMove, updateRangeDisplay, h]
    obtain ⟨h1, h2, h3⟩ := hstep
    obtain ⟨g1, g2, g3⟩ := ih (rangeStep c s (RangeEv.move y)) h1
    exact ⟨by simpa using g1, by rw [List.map_cons, List.foldl_cons, g2, h2],
      by rw [List.map_cons, List.foldl_cons, g3, h3]⟩

end KoaChart.PriceRange

namespace KoaChart

open PriceRange

/-- C1.  A RangeMeasure drag: primary-button press inside the plot area, any
sequence of pointer moves, then release.  When the final span is under 5
pixels the overlay returns to idle with every range element hidden and the
PriceGuidePlugin re-enabled; when the span is at least 5 pixels the range
display stays visible and the PriceGuidePlugin stays disabled, until a
subsequent clear (here the click that follows) re-enables it. -/
theorem c1_range_measure_drag (c : ChartCtx) (s : RangeState) (y0 y1 : ℚ) (moves : List ℚ)
    (hin : isInChartArea c (y0 - c.containerTop) = true) :
    (|y1 - y0| < 5 →
      (runRange c s (RangeEv.down 0 y0 :: (moves.map RangeEv.move ++ [RangeEv.up y1]))).isDragging = false ∧
      (runRange c s (RangeEv.down 0 y0 :: (moves.map RangeEv.move ++ [RangeEv.up y1]))).zoneVisible = false ∧
      (runRange c s (RangeEv.down 0 y0 :: (moves.map RangeEv.move ++ [RangeEv.up y1]))).topLabelVisible = false ∧
      (runRange c s (RangeEv.down 0 y0 :: (moves.map RangeEv.move ++ [RangeEv.up y1]))).bottomLabelVisible = false ∧
      (runRange c s (RangeEv.down 0 y0 :: (moves.map RangeEv.move ++ [RangeEv.up y1]))).percentVisible = false ∧
      (runRange c s (RangeEv.down 0 y0 :: (moves.map RangeEv.move ++ [RangeEv.up y1]))).priceGuideEnabled = true) ∧
    (5 ≤ |y1 - y0| →
      (runRange c s (RangeEv.down 0 y0 :: (moves.map RangeEv.move ++ [RangeEv.up y1]))).isDragging = false ∧
      (runRange c s (RangeEv.down 0 y0 :: (moves.map RangeEv.move ++ [RangeEv.up y1]))).zoneVisible = true ∧
      (runRange c s (RangeEv.down 0 y0 :: (moves.map RangeEv.move ++ [RangeEv.up y1]))).topLabelVisible = true ∧
      (runRange c s (RangeEv.down 0 y0 :: (moves.map RangeEv.move ++ [RangeEv.up y1]))).bottomLabelVisible = true ∧
      (runRange c s (RangeEv.down 0 y0 :: (moves.map RangeEv.move ++ [RangeEv.up y1]))).priceGuideEnabled = false ∧
      (runRange c s ((RangeEv.down 0 y0 :: (moves.map RangeEv.move ++ [RangeEv.up y1])) ++ [RangeEv.click])).priceGuideEnabled = true) := by
  have h1a : (rangeStep c s (RangeEv.down 0 y0)).isDragging = true := by
    simp [rangeStep, handleMouseDown, hin]
  have h1b : (rangeStep c s (RangeEv.down 0 y0)).startY = y0 - c.containerTop := by
    simp [rangeStep, handleMouseDown, hin]
  have h1c : (rangeStep c s (RangeEv.down 0 y0)).priceGuideEnabled = false := by
    simp [rangeStep, handleMouseDown, hin]
  obtain ⟨htd, hts, htp⟩ :=
    range_moves_invariant c moves (rangeStep c s (RangeEv.down 0 y0)) h1a
  set t := (moves.map RangeEv.move).foldl (rangeStep c) (rangeStep c s (RangeEv.down 0 y0)) with hT
  have hrun : runRange c s (RangeEv.down 0 y0 :: (moves.map RangeEv.move ++ [RangeEv.up y1]))
      = rangeStep c t (RangeEv.up y1) := by
    simp [runRange, List.foldl_cons, List.foldl_append, hT]
  have habs : |y1 - c.containerTop - t.startY| = |y1 - y0| := by
    rw [hts, h1b]; congr 1; ring
  have hrunclick : runRange c s ((RangeEv.down 0 y0 :: (moves.map RangeEv.move ++ [RangeEv.up y1])) ++ [RangeEv.click])
      = rangeStep c (rangeStep c t (RangeEv.up y1)) RangeEv.click := by
    simp [runRange, List.foldl_cons, List.foldl_append, hT]
  constructor
  · intro hlt
    have hfin : rangeStep c t (RangeEv.up y1)
        = { rangeClear { t with endY := y1 - c.containerTop } with
            priceGuideEnabled := true, isDragging := false } := by
      simp only [rangeStep, handleMouseUp, htd, Bool.not_true, Bool.false_eq_true, if_false]
      have : |({ t with endY := y1 - c.containerTop } : RangeState).endY -
          ({ t with endY := y1 - c.containerTop } : RangeState).startY| < 5 := by
        simpa [habs] using hlt
      rw [if_pos this]
    rw [hrun, hfin]
    simp [rangeClear]
  · intro hge
    have hnotlt : ¬ (|({ t with endY := y1 - c.containerTop } : RangeState).endY -
        ({ t with endY := y1 - c.containerTop } : RangeState).startY| < 5) := by
      simp only [habs]
      exact not_lt.mpr hge
    have hfin : rangeStep c t (RangeEv.up y1)
        = { updateRangeDisplay c { t with endY := y1 - c.containerTop } with isDragging := false } := by
      simp only [rangeStep, handleMouseUp, htd, Bool.not_true, Bool.false_eq_true, if_false]
      rw [if_neg hnotlt]
    have hfind : (rangeStep c t (RangeEv.up y1)).isDragging = false := by
      rw [hfin]
    refine ⟨by rw [hrun, hfin], ?_, ?_, ?_, ?_, ?_⟩
    · rw [hrun, hfin]; simp [updateRangeDisplay]
    · rw [hrun, hfin]; simp [updateRangeDisplay]
    · rw [hrun, hfin]; simp [updateRangeDisplay]
    · rw [hrun, hfin]; simp [updateRangeDisplay, htp, h1c]
    · rw [hrunclick]
      have hfd : (handleMouseUp c t y1).isDragging = false := hfind
      simp [rangeStep, handleClick, hfd, rangeClear]

/-- Witness for C1 at a concrete chart: a 20-pixel drag keeps the guide
disabled, a 2-pixel drag re-enables it. -/
theorem c1_range_measure_drag_witness :
    (runRange demoChart (rangeInit true)
      [RangeEv.down 0 50, RangeEv.move 70, RangeEv.up 70]).priceGuideEnabled = false ∧
    (runRange demoChart (rangeInit true)
      [RangeEv.down 0 50, RangeEv.move 70, RangeEv.up 52]).priceGuideEnabled = true := by
  have hin : isInChartArea demoChart (50 - demoChart.containerTop) = true := by
    simp [isInChartArea, demoChart]
    norm_num
  have h1 := c1_range_measure_drag demoChart (rangeInit true) 50 70 [70] hin
  have h2 := c1_range_measure_drag demoChart (rangeInit true) 50 52 [70] hin
  exact ⟨(h1.2 (by norm_num [abs_of_nonneg])).2.2.2.2.1,
    (h2.1 (by norm_num [abs_of_nonneg])).2.2.2.2.2⟩

end KoaChart

namespace KoaChart.PriceRange

/-- A state in which the RangeMeasure tool is active: either a drag is in
progress or some range element is still showing. -/
def rangeActive (s : RangeState) : Prop :=
  s.isDragging = true ∨ s.zoneVisible = true ∨ s.topLabelVisible = true ∨
  s.bottomLabelVisible = true ∨ s.percentVisible = true

instance (s : RangeState) : Decidable (rangeActive s) := by
  unfold rangeActive
  infer_instance

/-- Every single event handler of the PriceRangePlugin preserves the mutual
exclusion invariant: whenever the tool is active, the PriceGuidePlugin is
disabled. -/
theorem range_step_preserves_exclusion (c : ChartCtx) (s : RangeState) (e : RangeEv)
    (h : rangeActive s → s.priceGuideEnabled = false) :
    rangeActive (rangeStep c s e) → (rangeStep c s e).priceGuideEnabled = false := by
  cases e with
  | down button clientY =>
    by_cases hb : button ≠ 0
    · simpa [rangeStep, handleMouseDown, hb] using h
    · by_cases hi : isInChartArea c (clientY - c.containerTop) = true
      · intro _
        simp at hb
        simp [rangeStep, handleMouseDown, hb, hi]
      · simp at hb
        simpa [rangeStep, handleMouseDown, hb, hi] using h
  | move clientY =>
    by_cases hd : s.isDragging = true
    · intro _
      have := h (Or.inl hd)
      simp [rangeStep, handleMouseMove, updateRangeDisplay, hd, this]
    · simp at hd
      simpa [rangeStep, handleMouseMove, hd] using h
  | up clientY =>
    by_cases hd : s.isDragging = true
    · have hpg := h (Or.inl hd)
      by_cases hlt : |clientY - c.containerTop - s.startY| < 5
      · intro ha
        exfalso
        rcases ha with hx | hx | hx | hx | hx <;>
          simp [rangeStep, handleMouseUp, rangeClear, hd, hlt] at hx
      · intro _
        simp [rangeStep, handleMouseUp, updateRangeDisplay, hd, hlt, hpg]
    · simp at hd
      simpa [rangeStep, handleMouseUp, hd] using h
  | click =>
    by_cases hd : s.isDragging = true
    · simpa [rangeStep, handleClick, hd] using h
    · simp at hd
      intro ha
      exfalso
      rcases ha with hx | hx | hx | hx | hx <;>
        simp [rangeStep, handleClick, rangeClear, hd] at hx
  | setEnabledEv b =>
    cases b with
    | true => simpa [rangeStep, rangeSetEnabled, rangeActive] using h
    | false =>
      intro ha
      exfalso
      rcases ha with hx | hx | hx | hx | hx <;>
        simp [rangeStep, rangeSetEnabled, rangeClear] at hx

end KoaChart.PriceRange

namespace KoaChart

open PriceRange

/-- C4 counterexample.  The claim excepts an independently disabled
PriceGuide from re-enabling; the code has no such exception.  Starting with
the PriceGuidePlugin disabled, a click-sized drag of the RangeMeasure tool
ends in a clear that sets the guide back to enabled. -/
theorem c4_clear_reenables_counterexample :
    (rangeInit false).priceGuideEnabled = false ∧
    (runRange demoChart (rangeInit false)
      [RangeEv.down 0 50, RangeEv.up 50]).priceGuideEnabled = true := by
  refine ⟨rfl, ?_⟩
  have hin : isInChartArea demoChart (50 - demoChart.containerTop) = true := by
    simp [isInChartArea, demoChart]
    norm_num
  have h := c1_range_measure_drag demoChart (rangeInit false) 50 50 [] hin
  simpa using (h.1 (by norm_num)).2.2.2.2.2

/-- C4 amended.  In every state reachable from initialization by
RangeMeasure events: while the tool is dragging or showing a range element
the PriceGuidePlugin is disabled, and the clear operation always re-enables
the PriceGuidePlugin, regardless of how it was disabled. -/
theorem c4_range_guide_exclusion (c : ChartCtx) (pg0 : Bool) (evs : List RangeEv) :
    (rangeActive (runRange c (rangeInit pg0) evs) →
      (runRange c (rangeInit pg0) evs).priceGuideEnabled = false) ∧
    (∀ s : RangeState, (rangeClear s).priceGuideEnabled = true) := by
  constructor
  · have main : ∀ (l : List RangeEv) (s : RangeState),
        (rangeActive s → s.priceGuideEnabled = false) →
        rangeActive (runRange c s l) → (runRange c s l).priceGuideEnabled = false := by
      intro l
      induction l with
      | nil => intro s hs; simpa [runRange] using hs
      | cons e l ih =>
        intro s hs
        have h1 := range_step_preserves_exclusion c s e hs
        simpa [runRange, List.foldl_cons] using ih (rangeStep c s e) h1
    apply main
    intro ha
    rcases ha with hx | hx | hx | hx | hx <;> simp [rangeInit] at hx
  · intro s
    simp [rangeClear]

/-- Witness for C4 amended: after a press and a move the tool is dragging
and the guide is disabled; and a concrete clear re-enables the guide. -/
theorem c4_range_guide_exclusion_witness :
    (runRange demoChart (rangeInit true)
      [RangeEv.down 0 50, RangeEv.move 70]).priceGuideEnabled = false ∧
    (rangeClear (rangeInit false)).priceGuideEnabled = true := by
  have h := c4_range_guide_exclusion demoChart true [RangeEv.down 0 50, RangeEv.move 70]
  refine ⟨h.1 (Or.inl ?_), h.2 (rangeInit false)⟩
  have hin : isInChartArea demoChart (50 - demoChart.containerTop) = true := by
    simp [isInChartArea, demoChart]
    norm_num
  simp [runRange, rangeStep, handleMouseDown, handleMouseMove, updateRangeDisplay, hin]

end KoaChart

namespace KoaChart.PriceGuide

/-- Per-instance options of the PriceGuidePlugin
(src/public/chart-plugins/price-guide.js): whether the percent badge is
shown and whether the label can be dragged. -/
structure GuideOpts where
  showPercent : Bool
  movable : Bool
deriving DecidableEq, Repr

/-- Mutable state of the PriceGuidePlugin: the base-class enabled flag, the
isDisabled flag written by the price-range events, the visibility flag
backing the container opacity, the tracked pointer position, the price and
percent labels, and the label-drag state. -/
structure GuideState where
  enabled : Bool
  isDisabled : Bool
  visible : Bool
  posY : ℚ
  guideTop : ℚ
  labelVisible : Bool
  labelY : ℚ
  labelPrice : ℚ
  percentVisible : Bool
  percentY : ℚ
  percentValue : ℚ
  percentUp : Bool
  dragging : Bool
  dragOffsetY : ℚ
  dragStartY : ℚ
deriving DecidableEq, Repr

/-- Initial state after construction: enabled, not externally disabled,
hidden, no drag. -/
def guideInit : GuideState where
  enabled := true
  isDisabled := false
  visible := false
  posY := 0
  guideTop := 0
  labelVisible := false
  labelY := 0
  labelPrice := 0
  percentVisible := false
  percentY := 0
  percentValue := 0
  percentUp := false
  dragging := false
  dragOffsetY := 0
  dragStartY := 0

/-- PriceGuidePlugin._hide: when visible, drops the container opacity and
hides both labels. -/
def guideHide (s : GuideState) : GuideState :=
  if s.visible then
    { s with visible := false, labelVisible := false, percentVisible := false }
  else s

/-- PriceGuidePlugin._show: when hidden, raises the container opacity. -/
def guideShow (s : GuideState) : GuideState :=
  if !s.visible then { s with visible := true } else s

/-- PriceGuidePlugin._calculatePriceAtPosition: shifts the container-relative
y into scale space and inverts the y scale. -/
def calculatePriceAtPosition (c : ChartCtx) (y : ℚ) : ℚ :=
  c.invert (y - c.marginTop)

/-- PriceGuidePlugin._updateGuide: positions the container and the price
label at the tracked y, fills in the price, and when the percent option is
on and the series is non-empty also fills and positions the percent label
from the difference against the latest series price. -/
def guideUpdate (c : ChartCtx) (o : GuideOpts) (s : GuideState) : GuideState :=
  let price := calculatePriceAtPosition c s.posY
  let s1 := { s with guideTop := s.posY, labelPrice := price, labelY := s.posY,
                     labelVisible := true }
  if o.showPercent then
    match c.lastData.getLast? with
    | some lastPoint =>
      let pd := guideCalculatePercentDifference price lastPoint.price
      { s1 with percentValue := pd, percentUp := if 0 ≤ pd then true else false,
                percentY := s.posY + 20, percentVisible := true }
    | none => s1
  else s1

/-- PriceGuidePlugin._handleMouseMove: ignored while the plugin is not
enabled or while a label drag is active; otherwise tracks the pointer when
it is inside the plot area and hides the guide when it is outside. -/
def handleGuideMouseMove (c : ChartCtx) (o : GuideOpts) (s : GuideState) (clientY : ℚ) :
    GuideState :=
  if !s.enabled then s
  else if s.dragging then s
  else
    let relativeY := clientY - c.containerTop
    if isInChartArea c relativeY then
      guideShow (guideUpdate c o { s with posY := relativeY })
    else guideHide s

/-- PriceGuidePlugin._handleMouseLeave: ignored while not enabled, otherwise
hides the guide. -/
def handleGuideMouseLeave (s : GuideState) : GuideState :=
  if !s.enabled then s else guideHide s

/-- PriceGuidePlugin._processTouchPosition: ignored while not enabled;
shows and updates the guide when the touch is inside the plot area. -/
def processTouchPosition (c : ChartCtx) (o : GuideOpts) (s : GuideState) (clientY : ℚ) :
    GuideState :=
  if !s.enabled then s
  else
    let relativeY := clientY - c.containerTop
    if isInChartArea c relativeY then
      guideShow (guideUpdate c o { s with posY := relativeY })
    else s

/-- PriceGuidePlugin._handleTouchStart: ignored while not enabled; processes
a single-touch position. -/
def handleGuideTouchStart (c : ChartCtx) (o : GuideOpts) (s : GuideState) (clientY : ℚ)
    (touches : ℕ) : GuideState :=
  if !s.enabled then s
  else if touches = 1 then processTouchPosition c o s clientY else s

/-- PriceGuidePlugin._handleTouchMove: same guard and behavior as touch
start. -/
def handleGuideTouchMove (c : ChartCtx) (o : GuideOpts) (s : GuideState) (clientY : ℚ)
    (touches : ℕ) : GuideState :=
  if !s.enabled then s
  else if touches = 1 then processTouchPosition c o s clientY else s

/-- PriceGuidePlugin._handleTouchEnd: ignored while not enabled, otherwise
hides the guide. -/
def handleGuideTouchEnd (s : GuideState) : GuideState :=
  if !s.enabled then s else guideHide s

/-- PriceGuidePlugin._handleRangeStart: sets the isDisabled flag and hides
the guide.  Note the pointer handlers never read this flag back. -/
def handleRangeStart (s : GuideState) : GuideState :=
  guideHide { s with isDisabled := true }

/-- PriceGuidePlugin._handleRangeEnd: resets the isDisabled flag. -/
def handleRangeEnd (s : GuideState) : GuideState :=
  { s with isDisabled := false }

/-- Events delivered to the PriceGuidePlugin. -/
inductive GuideEv where
  | mouseMove (clientY : ℚ)
  | mouseLeave
  | touchStart (clientY : ℚ) (touches : ℕ)
  | touchMove (clientY : ℚ) (touches : ℕ)
  | touchEnd
  | rangeStart
  | rangeEnd
deriving DecidableEq, Repr

/-- The five pointer events of the claim: mouse move, mouse leave, touch
start, touch move and touch end. -/
def isPointerEv : GuideEv → Bool
  | GuideEv.mouseMove _ => true
  | GuideEv.mouseLeave => true
  | GuideEv.touchStart _ _ => true
  | GuideEv.touchMove _ _ => true
  | GuideEv.touchEnd => true
  | GuideEv.rangeStart => false
  | GuideEv.rangeEnd => false

/-- One event-handler dispatch of the PriceGuidePlugin. -/
def guideStep (c : ChartCtx) (o : GuideOpts) (s : GuideState) : GuideEv → GuideState
  | GuideEv.mouseMove clientY => handleGuideMouseMove c o s clientY
  | GuideEv.mouseLeave => handleGuideMouseLeave s
  | GuideEv.touchStart clientY touches => handleGuideTouchStart c o s clientY touches
  | GuideEv.touchMove clientY touches => handleGuideTouchMove c o s clientY touches
  | GuideEv.touchEnd => handleGuideTouchEnd s
  | GuideEv.rangeStart => handleRangeStart s
  | GuideEv.rangeEnd => handleRangeEnd s

/-- Default options of the PriceGuidePlugin: percent badge on, label not
movable. -/
def guideDefaultOpts : GuideOpts where
  showPercent := true
  movable := false

end KoaChart.PriceGuide

namespace KoaChart

open PriceGuide

/-- C2 counterexample.  After a priceRangeStart event the isDisabled flag is
set, yet a mouse move inside the plot area still shows the guide and updates
its labels, because the pointer handlers only consult the enabled flag. -/
theorem c2_isdisabled_not_consulted_counterexample :
    (guideStep demoChart guideDefaultOpts guideInit GuideEv.rangeStart).isDisabled = true ∧
    (guideStep demoChart guideDefaultOpts guideInit GuideEv.rangeStart).enabled = true ∧
    (guideStep demoChart guideDefaultOpts guideInit GuideEv.rangeStart).visible = false ∧
    (guideStep demoChart guideDefaultOpts
      (guideStep demoChart guideDefaultOpts guideInit GuideEv.rangeStart)
      (GuideEv.mouseMove 50)).visible = true ∧
    (guideStep demoChart guideDefaultOpts
      (guideStep demoChart guideDefaultOpts guideInit GuideEv.rangeStart)
      (GuideEv.mouseMove 50)).labelVisible = true := by
  have hstart : guideStep demoChart guideDefaultOpts guideInit GuideEv.rangeStart
      = { guideInit with isDisabled := true } := by
    simp [guideStep, handleRangeStart, guideHide, guideInit]
  have hin : isInChartArea demoChart (50 - demoChart.containerTop) = true := by
    simp [isInChartArea, demoChart]
    norm_num
  rw [hstart]
  refine ⟨rfl, rfl, rfl, ?_, ?_⟩ <;>
    norm_num [guideStep, handleGuideMouseMove, guideInit, isInChartArea, guideUpdate,
      guideShow, guideDefaultOpts, demoChart]

/-- C2 amended.  Every pointer event (mouse move, mouse leave, touch start,
touch move, touch end) delivered while the enabled flag is false leaves the
PriceGuidePlugin state completely unchanged; the isDisabled flag plays no
part in the pointer-event guards. -/
theorem c2_disabled_ignores_pointer_events (c : ChartCtx) (o : GuideOpts) (s : GuideState)
    (e : GuideEv) (hen : s.enabled = false) (hp : isPointerEv e = true) :
    guideStep c o s e = s := by
  cases e with
  | mouseMove clientY => simp [guideStep, handleGuideMouseMove, hen]
  | mouseLeave => simp [guideStep, handleGuideMouseLeave, hen]
  | touchStart clientY touches => simp [guideStep, handleGuideTouchStart, hen]
  | touchMove clientY touches => simp [guideStep, handleGuideTouchMove, hen]
  | touchEnd => simp [guideStep, handleGuideTouchEnd, hen]
  | rangeStart => simp [isPointerEv] at hp
  | rangeEnd => simp [isPointerEv] at hp

/-- Witness for C2 amended: a disabled guide ignores a concrete mouse move
inside the plot area. -/
theorem c2_disabled_ignores_pointer_events_witness :
    guideStep demoChart guideDefaultOpts { guideInit with enabled := false }
      (GuideEv.mouseMove 50) = { guideInit with enabled := false } :=
  c2_disabled_ignores_pointer_events demoChart guideDefaultOpts
    { guideInit with enabled := false } (GuideEv.mouseMove 50) rfl rfl

end KoaChart

namespace KoaChart.MovableLine

/-- Mutable state of MovableLinePlugin
(src/public/chart-plugins/movable-line.js): the base-class enabled flag, the
drag state (isDragging, offsetY, startY), the price option mutated by the
drag, plus two observation fields: a count of render invocations and the
list of prices passed to the onMoved callback. -/
structure MLState where
  enabled : Bool
  dragging : Bool
  offsetY : ℚ
  dragStartY : ℚ
  price : ℚ
  renderCount : ℕ
  movedCalls : List ℚ
deriving DecidableEq, Repr

/-- The new label-center position a pointer move produces: pointer y minus
container top, minus the top margin, minus the drag offset, clamped to
the plot height interval. -/
def mlMoveY (c : ChartCtx) (offsetY clientY : ℚ) : ℚ :=
  max 0 (min (clientY - c.containerTop - c.marginTop - offsetY) c.height)

/-- MovableLinePlugin._handleMouseDown: ignored while not enabled; records
the offset between the pointer and the label center, arms the drag and
stores the starting pixel position of the current price. -/
def mlDown (c : ChartCtx) (s : MLState) (clientY labelCenterY : ℚ) : MLState :=
  if !s.enabled then s
  else
    { s with
      offsetY := clientY - labelCenterY
      dragging := true
      dragStartY := c.scale s.price }

/-- MovableLinePlugin._handleMouseMove: ignored while not enabled or not
dragging; clamps the new label-center y to the plot, inverts it to a price,
stores it in the price option and renders once. -/
def mlMove (c : ChartCtx) (s : MLState) (clientY : ℚ) : MLState :=
  if !s.enabled || !s.dragging then s
  else
    let newY := mlMoveY c s.offsetY clientY
    let price := c.invert newY
    { s with price := price, renderCount := s.renderCount + 1 }

/-- MovableLinePlugin._handleMouseUp: ignored while not enabled or not
dragging; drops the drag flag and invokes the onMoved callback once with
the current price option. -/
def mlUp (s : MLState) : MLState :=
  if !s.enabled || !s.dragging then s
  else { s with dragging := false, movedCalls := s.movedCalls ++ [s.price] }

/-- Events delivered to the MovableLinePlugin during a mouse drag. -/
inductive MLEv where
  | down (clientY labelCenterY : ℚ)
  | move (clientY : ℚ)
  | up
deriving Repr

/-- One event-handler dispatch of the MovableLinePlugin. -/
def mlStep (c : ChartCtx) (s : MLState) : MLEv → MLState
  | MLEv.down clientY labelCenterY => mlDown c s clientY labelCenterY
  | MLEv.move clientY => mlMove c s clientY
  | MLEv.up => mlUp s

/-- A sequence of events dispatched by the event loop. -/
def runML (c : ChartCtx) (s : MLState) (evs : List MLEv) : MLState :=
  evs.foldl (mlStep c) s

/-- During an enabled drag, a block of pointer moves keeps the drag armed,
preserves the offset and the callback list, renders exactly once per move,
and leaves the price at the value determined by the last move. -/
theorem ml_moves_fold (c : ChartCtx) (moves : List ℚ) (s : MLState)
    (hen : s.enabled = true) (hdr : s.dragging = true) :
    ((moves.map MLEv.move).foldl (mlStep c) s).enabled = true ∧
    ((moves.map MLEv.move).foldl (mlStep c) s).dragging = true ∧
    ((moves.map MLEv.move).foldl (mlStep c) s).offsetY = s.offsetY ∧
    ((moves.map MLEv.move).foldl (mlStep c) s).movedCalls = s.movedCalls ∧
    ((moves.map MLEv.move).foldl (mlStep c) s).renderCount = s.renderCount + moves.length ∧
    (∀ h : moves ≠ [],
      ((moves.map MLEv.move).foldl (mlStep c) s).price
        = c.invert (mlMoveY c s.offsetY (moves.getLast h))) := by
  induction moves generalizing s with
  | nil => simp [hen, hdr]
  | cons y ys ih =>
    have hstep : mlStep c s (MLEv.move y)
        = { s with price := c.invert (mlMoveY c s.offsetY y),
                   renderCount := s.renderCount + 1 } := by
      simp [mlStep, mlMove, hen, hdr]
    obtain ⟨g1, g2, g3, g4, g5, g6⟩ := ih
      { s with price := c.invert (mlMoveY c s.offsetY y), renderCount := s.renderCount + 1 }
      (by simp [hen]) (by simp [hdr])
    rw [List.map_cons, List.foldl_cons, hstep]
    refine ⟨g1, g2, by simpa using g3, by simpa using g4, ?_, ?_⟩
    · rw [g5]
      simp [List.length_cons]
      ring
    · intro hne
      cases ys with
      | nil => simp
      | cons z zs =>
        have hlast : (y :: z :: zs).getLast hne = (z :: zs).getLast (by simp) := by
          simp [List.getLast]
        rw [hlast]
        have := g6 (by simp)
        simpa using this

end KoaChart.MovableLine

namespace KoaChart

open MovableLine

/-- C3.  A synthetic MovableLine drag with the overlay enabled throughout:
the onMoved callback fires exactly once, with the price equal to the inverse
y scale of the final label-center position (final pointer y minus container
top, top margin and pointer offset, clamped to the plot height); every
intermediate move renders exactly once and stores the corresponding price. -/
theorem c3_movable_line_drag (c : ChartCtx) (s : MLState) (y0 lc : ℚ) (moves : List ℚ)
    (hen : s.enabled = true) (hmv : moves ≠ []) :
    (runML c s (MLEv.down y0 lc :: (moves.map MLEv.move ++ [MLEv.up]))).movedCalls
      = s.movedCalls ++ [c.invert (mlMoveY c (y0 - lc) (moves.getLast hmv))] ∧
    (runML c s (MLEv.down y0 lc :: (moves.map MLEv.move ++ [MLEv.up]))).price
      = c.invert (mlMoveY c (y0 - lc) (moves.getLast hmv)) ∧
    (runML c s (MLEv.down y0 lc :: (moves.map MLEv.move ++ [MLEv.up]))).renderCount
      = s.renderCount + moves.length ∧
    (runML c s (MLEv.down y0 lc :: (moves.map MLEv.move ++ [MLEv.up]))).dragging = false ∧
    (∀ i : Fin moves.length,
      (runML c s (MLEv.down y0 lc :: (moves.take (i.1 + 1)).map MLEv.move)).price
        = c.invert (mlMoveY c (y0 - lc) (moves.get i))) := by
  have hdown : mlDown c s y0 lc
      = { s with offsetY := y0 - lc, dragging := true, dragStartY := c.scale s.price } := by
    simp [mlDown, hen]
  obtain ⟨g1, g2, g3, g4, g5, g6⟩ := ml_moves_fold c moves
    { s with offsetY := y0 - lc, dragging := true, dragStartY := c.scale s.price }
    (by simp [hen]) (by simp)
  set t := (moves.map MLEv.move).foldl (mlStep c)
    { s with offsetY := y0 - lc, dragging := true, dragStartY := c.scale s.price } with hT
  have hrun : runML c s (MLEv.down y0 lc :: (moves.map MLEv.move ++ [MLEv.up]))
      = mlUp t := by
    simp [runML, List.foldl_cons, List.foldl_append, hdown, hT, mlStep]
  have hprice : t.price = c.invert (mlMoveY c (y0 - lc) (moves.getLast hmv)) := by
    have := g6 hmv
    simpa using this
  have hup : mlUp t = { t with dragging := false, movedCalls := t.movedCalls ++ [t.price] } := by
    simp [mlUp, g1, g2]
  refine ⟨?_, ?_, ?_, ?_, ?_⟩
  · rw [hrun, hup]
    simp [g4, hprice]
  · rw [hrun, hup]
    simpa using hprice
  · rw [hrun, hup]
    simpa using g5
  · rw [hrun, hup]
  · intro i
    have htake : runML c s (MLEv.down y0 lc :: (moves.take (i.1 + 1)).map MLEv.move)
        = ((moves.take (i.1 + 1)).map MLEv.move).foldl (mlStep c)
          { s with offsetY := y0 - lc, dragging := true, dragStartY := c.scale s.price } := by
      simp [runML, List.foldl_cons, mlStep, hdown]
    have hne : moves.take (i.1 + 1) ≠ [] := by
      have : (moves.take (i.1 + 1)).length = i.1 + 1 := by
        rw [List.length_take]
        exact min_eq_left (Nat.succ_le_of_lt i.2)
      intro hc
      rw [hc] at this
      simp at this
    obtain ⟨_, _, _, _, _, f6⟩ := ml_moves_fold c (moves.take (i.1 + 1))
      { s with offsetY := y0 - lc, dragging := true, dragStartY := c.scale s.price }
      (by simp [hen]) (by simp)
    have hlast : (moves.take (i.1 + 1)).getLast hne = moves.get i := by
      have h1 : moves.take (i.1 + 1) = moves.take i.1 ++ [moves.get i] := by
        rw [← List.take_concat_get moves i.1 i.2]
        simp [List.concat_eq_append]
      have h2 : (moves.take (i.1 + 1)).getLast? = some (moves.get i) := by
        rw [h1]
        exact List.getLast?_concat _
      rw [List.getLast?_eq_getLast (moves.take (i.1 + 1)) hne] at h2
      exact Option.some_injective _ h2
    rw [htake]
    have := f6 hne
    rw [hlast] at this
    simpa using this

/-- Demo MovableLine state used by the witness: enabled, idle, price 40. -/
def mlDemoState : MLState where
  enabled := true
  dragging := false
  offsetY := 0
  dragStartY := 0
  price := 40
  renderCount := 0
  movedCalls := []

/-- Witness for C3 at a concrete drag: pointer down at 55 on a label
centered at 50, moves to 70 and 30, release; the single callback price is
the inverse scale of 30 - 0 - 10 - 5 = 15 and two renders happened. -/
theorem c3_movable_line_drag_witness :
    (runML demoChart mlDemoState
      [MLEv.down 55 50, MLEv.move 70, MLEv.move 30, MLEv.up]).movedCalls = [(15 : ℚ)] ∧
    (runML demoChart mlDemoState
      [MLEv.down 55 50, MLEv.move 70, MLEv.move 30, MLEv.up]).renderCount = 2 := by
  have h := c3_movable_line_drag demoChart mlDemoState 55 50 [70, 30] rfl (by simp)
  constructor
  · rw [show [MLEv.down 55 50, MLEv.move 70, MLEv.move 30, MLEv.up]
        = MLEv.down 55 50 :: (List.map MLEv.move [70, 30] ++ [MLEv.up]) by rfl]
    rw [h.1]
    norm_num [mlDemoState, mlMoveY, demoChart]
  · rw [show [MLEv.down 55 50, MLEv.move 70, MLEv.move 30, MLEv.up]
        = MLEv.down 55 50 :: (List.map MLEv.move [70, 30] ++ [MLEv.up]) by rfl]
    rw [h.2.2.1]
    simp [mlDemoState]

end KoaChart

namespace KoaChart.PriceLine

/-- Construction-time options of the PriceLinePlugin
(src/public/chart-plugins/price-line.js) that stay fixed after the
constructor: the bullet flag and the label side. -/
structure PLOpts where
  showBullet : Bool
  positionLeft : Bool
deriving DecidableEq, Repr

/-- Mutable state of the PriceLinePlugin: the base-class enabled flag, the
mutable options price, label and tooltip, and the rendered geometry of the
line, bullet and label elements.  Pure styling attributes (colors, fonts,
paddings) are not part of the verified state. -/
structure PLState where
  enabled : Bool
  price : Option ℚ
  label : Option String
  tooltip : Option String
  lineX1 : ℚ
  lineX2 : ℚ
  lineY : ℚ
  bulletX : ℚ
  bulletY : ℚ
  labelTop : ℚ
  labelText : String
  tooltipText : String
  labelShown : Bool
deriving DecidableEq, Repr

/-- Default geometry options: no bullet, label on the right. -/
def plDefaultOpts : PLOpts where
  showBullet := false
  positionLeft := false

/-- PriceLinePlugin constructor: records the price and label options as
given (a missing price stays null) and returns the console.error lines it
logged; a missing price logs the configuration error but does not throw. -/
def plNew (price : Option ℚ) (label : Option String) : PLState × List String :=
  ({ enabled := true
     price := price
     label := label
     tooltip := none
     lineX1 := 0
     lineX2 := 0
     lineY := 0
     bulletX := 0
     bulletY := 0
     labelTop := 0
     labelText := ""
     tooltipText := ""
     labelShown := false },
   if price = none then ["PriceLinePlugin: price option is required"] else [])

/-- PriceLinePlugin.render: returns unchanged while not enabled; otherwise
positions the line at the scale of the price option (null coercing to 0),
places the bullet at the configured edge, resolves the label text from the
label option or by formatting the price (which throws on a null price),
resolves the tooltip, and positions and shows the label at margin.top plus
the line y.  The embedding surfaces the formatting TypeError as the error
case; the partial line mutation performed before the throw is dropped. -/
def plRender (c : ChartCtx) (o : PLOpts) (s : PLState) : Except String PLState :=
  if !s.enabled then Except.ok s
  else
    let yPos := c.scale (jsToNumber s.price)
    (match s.label with
     | some l => Except.ok l
     | none => chartFormatPrice s.price).bind fun labelText =>
    Except.ok { s with
      lineX1 := 0
      lineX2 := c.width
      lineY := yPos
      bulletX := if o.showBullet then (if o.positionLeft then 0 else c.width) else s.bulletX
      bulletY := if o.showBullet then yPos else s.bulletY
      labelText := labelText
      tooltipText := match s.tooltip with
        | some tt => tt
        | none => labelText
      labelTop := c.marginTop + yPos
      labelShown := true }

/-- PriceLinePlugin.onResize: re-renders only while enabled (and a chart is
bound, which this model assumes); a disabled plugin returns unchanged. -/
def plOnResize (c : ChartCtx) (o : PLOpts) (s : PLState) : Except String PLState :=
  if s.enabled then plRender c o s else Except.ok s

/-- PriceLinePlugin.updatePrice: stores the new price option and renders. -/
def plUpdatePrice (c : ChartCtx) (o : PLOpts) (s : PLState) (price : ℚ) :
    Except String PLState :=
  plRender c o { s with price := some price }

/-- PriceLinePlugin.clear: zeroes the line and bullet geometry and hides the
label. -/
def plClear (s : PLState) : PLState :=
  { s with lineX1 := 0, lineX2 := 0, lineY := 0, bulletX := 0, bulletY := 0,
           labelShown := false }

/-- ChartPluginManager.onResize
(src/public/chart-plugins/movable-line.js, second file section): calls
onResize on every registered plugin, with no enabled check. -/
def managerOnResize (c : ChartCtx) (o : PLOpts) (ps : List PLState) :
    List (Except String PLState) :=
  ps.map (plOnResize c o)

end KoaChart.PriceLine

namespace KoaChart

open PriceLine

/-- Disabled PriceLine state holding stale geometry: the stored line y (999)
no longer matches the scale position of its price option (30). -/
def plStaleState : PLState where
  enabled := false
  price := some 30
  label := none
  tooltip := none
  lineX1 := 0
  lineX2 := 290
  lineY := 999
  bulletX := 0
  bulletY := 0
  labelTop := 999
  labelText := ""
  tooltipText := ""
  labelShown := true

/-- C5 counterexample.  The claim says every overlay recomputes its geometry
on onResize even while disabled; a disabled PriceLinePlugin returns from
onResize without rendering, keeping its stale line position. -/
theorem c5_disabled_onresize_counterexample :
    plOnResize demoChart plDefaultOpts plStaleState = Except.ok plStaleState ∧
    plStaleState.lineY ≠ demoChart.scale (jsToNumber plStaleState.price) := by
  constructor
  · simp [plOnResize, plStaleState]
  · norm_num [plStaleState, demoChart, jsToNumber]

/-- C5 amended.  The registry onResize reaches every plugin regardless of
its enabled state, but a PriceLinePlugin onResize re-renders only while
enabled: a disabled plugin keeps its previous geometry unchanged, and an
enabled one recomputes the line y from the current scale and the label top
from the current top margin. -/
theorem c5_onresize_enabled_only (c : ChartCtx) (o : PLOpts) (ps : List PLState)
    (s : PLState) :
    (∀ i : Fin ps.length,
      (managerOnResize c o ps).get ⟨i.1, by simp [managerOnResize]⟩
        = plOnResize c o (ps.get i)) ∧
    (s.enabled = false → plOnResize c o s = Except.ok s) ∧
    (s.enabled = true → plOnResize c o s = plRender c o s ∧
      ∀ t, plRender c o s = Except.ok t →
        t.lineY = c.scale (jsToNumber s.price) ∧ t.labelTop = c.marginTop + t.lineY) := by
  refine ⟨?_, ?_, ?_⟩
  · intro i
    simp [managerOnResize]
  · intro hen
    simp [plOnResize, hen]
  · intro hen
    refine ⟨by simp [plOnResize, hen], ?_⟩
    intro t ht
    cases hl : s.label with
    | some l =>
      rw [plRender] at ht
      simp [hen, hl, Except.bind] at ht
      rw [← ht]
      simp
    | none =>
      cases hp : chartFormatPrice s.price with
      | ok fp =>
        rw [plRender] at ht
        simp [hen, hl, hp, Except.bind] at ht
        rw [← ht]
        simp
      | error e =>
        rw [plRender] at ht
        simp [hen, hl, hp, Except.bind] at ht

/-- Witness for C5 amended: the disabled stale plugin is returned unchanged
by onResize, and an enabled copy of it gets the recomputed geometry. -/
theorem c5_onresize_enabled_only_witness :
    plOnResize demoChart plDefaultOpts plStaleState = Except.ok plStaleState ∧
    plOnResize demoChart plDefaultOpts { plStaleState with enabled := true }
      = plRender demoChart plDefaultOpts { plStaleState with enabled := true } := by
  have h1 := c5_onresize_enabled_only demoChart plDefaultOpts [] plStaleState
  have h2 := c5_onresize_enabled_only demoChart plDefaultOpts []
    { plStaleState with enabled := true }
  exact ⟨h1.2.1 rfl, (h2.2.2 rfl).1⟩

/-- C6.  A PriceLinePlugin constructed without the price option logs the
configuration error and does not throw; but a later render with the default
(null) label reaches formatPrice(null), which throws a TypeError instead of
substituting 0.  Only the line geometry itself behaves as if the price were
0 (JavaScript null-to-0 coercion inside the scale), which the third conjunct
shows for a construction that supplies an explicit label. -/
theorem c6_missing_price_render_throws :
    (plNew none none).2 = ["PriceLinePlugin: price option is required"] ∧
    plRender demoChart plDefaultOpts (plNew none none).1
      = Except.error "TypeError: Cannot read properties of null" ∧
    (plRender demoChart plDefaultOpts (plNew none (some "T")).1).map (fun t => t.lineY)
      = Except.ok (demoChart.scale 0) := by
  refine ⟨rfl, ?_, ?_⟩
  · simp [plRender, plNew, chartFormatPrice, jsToNumber, Except.bind]
  · simp [plRender, plNew, jsToNumber, Except.bind, Except.map]

end KoaChart

namespace KoaChart.CurrentPrice

open KoaChart.PriceLine

/-- Geometry options of the PriceLinePlugin embedded in the
CurrentPricePlugin (src/unnamed/part_002, first file section): bullet on,
label on the right. -/
def cpLineOpts : PLOpts where
  showBullet := true
  positionLeft := false

/-- Mutable state of the CurrentPricePlugin: the tracked current and
previous prices, the computed percent change, the percent badge, and the
embedded PriceLinePlugin state. -/
structure CPState where
  currentPrice : Option ℚ
  previousPrice : Option ℚ
  percentChange : Option ℚ
  badgeShown : Bool
  badgeText : String
  badgeGreen : Bool
  badgeTop : ℚ
  lineState : PLState
deriving DecidableEq, Repr

/-- State after construction and init: no prices seen yet, badge hidden,
embedded price line constructed with price 0. -/
def cpInit : CPState where
  currentPrice := none
  previousPrice := none
  percentChange := none
  badgeShown := false
  badgeText := ""
  badgeGreen := false
  badgeTop := 0
  lineState := (plNew (some 0) none).1

/-- CurrentPricePlugin.clear: clears the embedded line and hides the
badge. -/
def cpClear (s : CPState) : CPState :=
  { s with lineState := plClear s.lineState, badgeShown := false }

/-- CurrentPricePlugin._updatePercentInfo: refreshes the stored previous
price when it was still null, then, when a positive previous price exists,
computes the percent change against it, formats the badge, colors it by
sign, and positions it a fixed offset above the line (20 on narrow
viewports, 25 otherwise). -/
def cpUpdatePercentInfo (c : ChartCtx) (s : CPState) (newPrice : ℚ) : CPState :=
  let prev := if s.previousPrice = none ∧ s.currentPrice ≠ none then s.currentPrice
              else s.previousPrice
  match prev with
  | some pv =>
    if 0 < pv then
      let pc := ((newPrice - pv) / pv) * 100
      { s with
        previousPrice := prev
        percentChange := some pc
        badgeText := chartFormatPercent pc 2
        badgeGreen := if 0 ≤ pc then true else false
        badgeTop := c.marginTop + c.scale newPrice -
          (if c.containerWidth < 600 then 20 else 25)
        badgeShown := true }
    else { s with previousPrice := prev }
  | none => { s with previousPrice := prev }

/-- CurrentPricePlugin.render: clears when the series is empty; on the
first render just stores the last price; on later renders updates the
percent info only when the last price actually changed; finally pushes the
current price into the embedded price line via updatePrice. -/
def cpRender (c : ChartCtx) (s : CPState) : Except String CPState :=
  match c.lastData.getLast? with
  | none => Except.ok (cpClear s)
  | some lastPoint =>
    let newPrice := lastPoint.price
    let s1 :=
      if s.currentPrice = none then
        { s with previousPrice := some newPrice, currentPrice := some newPrice }
      else if some newPrice ≠ s.currentPrice then
        { (cpUpdatePercentInfo c { s with previousPrice := s.currentPrice } newPrice) with
          currentPrice := some newPrice }
      else s
    (plUpdatePrice c cpLineOpts s1.lineState (jsToNumber s1.currentPrice)).map
      fun pl => { s1 with lineState := pl }

/-- Chart context with identity scales whose series carries the given
prices in order. -/
def cpChart (prices : List ℚ) : ChartCtx where
  marginTop := 10
  marginBottom := 10
  marginLeft := 5
  marginRight := 5
  width := 290
  height := 80
  containerTop := 0
  containerHeight := 100
  containerWidth := 800
  scale := fun p => p
  invert := fun y => y
  lastData := prices.map fun p => { timestamp := 0, price := p }

/-- Embedded line state after rendering price 100 on the demo scales. -/
def cpPl1 : PLState where
  enabled := true
  price := some 100
  label := none
  tooltip := none
  lineX1 := 0
  lineX2 := 290
  lineY := 100
  bulletX := 290
  bulletY := 100
  labelTop := 110
  labelText := "100"
  tooltipText := "100"
  labelShown := true

/-- CurrentPrice state after the first render over last price 100. -/
def cpS1 : CPState where
  currentPrice := some 100
  previousPrice := some 100
  percentChange := none
  badgeShown := false
  badgeText := ""
  badgeGreen := false
  badgeTop := 0
  lineState := cpPl1

/-- Embedded line state after rendering price 110. -/
def cpPl2 : PLState :=
  { cpPl1 with price := some 110, lineY := 110, bulletY := 110, labelTop := 120,
               labelText := "110", tooltipText := "110" }

/-- CurrentPrice state after the second render over last price 110. -/
def cpS2 : CPState where
  currentPrice := some 110
  previousPrice := some 100
  percentChange := some 10
  badgeShown := true
  badgeText := "+10.00%"
  badgeGreen := true
  badgeTop := 95
  lineState := cpPl2

/-- Embedded line state after rendering price 99. -/
def cpPl3 : PLState :=
  { cpPl1 with price := some 99, lineY := 99, bulletY := 99, labelTop := 109,
               labelText := "99.00", tooltipText := "99.00" }

/-- CurrentPrice state after the third render over last price 99. -/
def cpS3 : CPState where
  currentPrice := some 99
  previousPrice := some 110
  percentChange := some (-10)
  badgeShown := true
  badgeText := "-10.00%"
  badgeGreen := false
  badgeTop := 84
  lineState := cpPl3

end KoaChart.CurrentPrice

namespace KoaChart

open PriceLine CurrentPrice

/-- Evaluation of formatPrice at 100: zero decimals. -/
theorem chartFormatPrice_100 : chartFormatPrice (some 100) = Except.ok "100" := by
  have h : jsToFixedRound (100 : ℚ) = 100 := by
    norm_num [jsToFixedRound]
  simp only [chartFormatPrice, ratToFixed]
  norm_num
  rw [h]
  rfl

/-- Evaluation of formatPrice at 110: zero decimals. -/
theorem chartFormatPrice_110 : chartFormatPrice (some 110) = Except.ok "110" := by
  have h : jsToFixedRound (110 : ℚ) = 110 := by
    norm_num [jsToFixedRound]
  simp only [chartFormatPrice, ratToFixed]
  norm_num
  rw [h]
  rfl

/-- Evaluation of formatPrice at 99: two decimals. -/
theorem chartFormatPrice_99 : chartFormatPrice (some 99) = Except.ok "99.00" := by
  have h : jsToFixedRound (9900 : ℚ) = 9900 := by
    norm_num [jsToFixedRound]
  simp only [chartFormatPrice, ratToFixed]
  norm_num
  rw [h]
  rfl

/-- Evaluation of formatPercent at +10. -/
theorem chartFormatPercent_10 : chartFormatPercent 10 2 = "+10.00%" := by
  have h : jsToFixedRound (1000 : ℚ) = 1000 := by
    norm_num [jsToFixedRound]
  simp only [chartFormatPercent, ratToFixed]
  norm_num
  rw [h]
  rfl

/-- Evaluation of formatPercent at -10. -/
theorem chartFormatPercent_neg10 : chartFormatPercent (-10) 2 = "-10.00%" := by
  have h : jsToFixedRound (-1000 : ℚ) = -1000 := by
    norm_num [jsToFixedRound]
  simp only [chartFormatPercent, ratToFixed]
  norm_num
  rw [h]
  rfl

/-- C7.  Rendering the CurrentPricePlugin over last prices 100, 110, 99 in
turn: the first render shows no badge, the second shows +10.00% (against
the stored previous price 100), the third shows -10.00% (against the
previous price 110, not the first price); rendering again with an unchanged
last price leaves the state identical. -/
theorem c7_current_price_percent_sequence :
    cpRender (cpChart [100]) cpInit = Except.ok cpS1 ∧
    cpS1.badgeShown = false ∧
    cpRender (cpChart [100, 110]) cpS1 = Except.ok cpS2 ∧
    cpS2.badgeText = "+10.00%" ∧ cpS2.badgeGreen = true ∧
    cpRender (cpChart [100, 110, 99]) cpS2 = Except.ok cpS3 ∧
    cpS3.badgeText = "-10.00%" ∧ cpS3.badgeGreen = false ∧
    cpRender (cpChart [100, 110, 99]) cpS3 = Except.ok cpS3 := by
  refine ⟨?_, rfl, ?_, rfl, rfl, ?_, rfl, rfl, ?_⟩
  · norm_num [cpRender, cpChart, cpInit, plUpdatePrice, plRender, plNew, jsToNumber,
      cpLineOpts, chartFormatPrice_100, Except.bind, Except.map, cpS1, cpPl1,
      Option.some_ne_none]
  · norm_num [cpRender, cpChart, cpS1, cpPl1, cpUpdatePercentInfo, plUpdatePrice,
      plRender, jsToNumber, cpLineOpts, chartFormatPrice_110, chartFormatPercent_10,
      Except.bind, Except.map, cpS2, cpPl2, Option.some_ne_none]
  · norm_num [cpRender, cpChart, cpS2, cpPl2, cpPl1, cpUpdatePercentInfo, plUpdatePrice,
      plRender, jsToNumber, cpLineOpts, chartFormatPrice_99, chartFormatPercent_neg10,
      Except.bind, Except.map, cpS3, cpPl3, Option.some_ne_none]
  · norm_num [cpRender, cpChart, cpS3, cpPl3, cpPl1, cpUpdatePercentInfo, plUpdatePrice,
      plRender, jsToNumber, cpLineOpts, chartFormatPrice_99,
      Except.bind, Except.map, Option.some_ne_none]

end KoaChart

namespace KoaChart

/-- Rendering of a JavaScript number by toFixed, extended to the special
values: Infinity.toFixed(d) is the string Infinity, likewise -Infinity and
NaN. -/
def jsValToFixed (v : JSVal) (d : ℕ) : String :=
  match v with
  | JSVal.num q => ratToFixed q d
  | JSVal.posInf => "Infinity"
  | JSVal.negInf => "-Infinity"
  | JSVal.nan => "NaN"

/-- The left fold of max starting at p bounds p and every list element from
above, and is itself either p or a list element. -/
theorem foldl_max_spec (ps : List ℚ) (p : ℚ) :
    (p ≤ ps.foldl max p) ∧ (∀ q ∈ ps, q ≤ ps.foldl max p) ∧
    (ps.foldl max p = p ∨ ps.foldl max p ∈ ps) := by
  induction ps generalizing p with
  | nil => simp
  | cons x xs ih =>
    obtain ⟨h1, h2, h3⟩ := ih (max p x)
    simp only [List.foldl_cons]
    refine ⟨le_trans (le_max_left p x) h1, ?_, ?_⟩
    · intro q hq
      rcases List.mem_cons.mp hq with hq | hq
      · rw [hq]
        exact le_trans (le_max_right p x) h1
      · exact h2 q hq
    · rcases h3 with h | h
      · rcases max_choice p x with hc | hc
        · left
          rw [h, hc]
        · right
          rw [h, hc]
          exact List.mem_cons_self x xs
      · right
        exact List.mem_cons_of_mem x h

/-- The left fold of min starting at p bounds p and every list element from
below, and is itself either p or a list element. -/
theorem foldl_min_spec (ps : List ℚ) (p : ℚ) :
    (ps.foldl min p ≤ p) ∧ (∀ q ∈ ps, ps.foldl min p ≤ q) ∧
    (ps.foldl min p = p ∨ ps.foldl min p ∈ ps) := by
  induction ps generalizing p with
  | nil => simp
  | cons x xs ih =>
    obtain ⟨h1, h2, h3⟩ := ih (min p x)
    simp only [List.foldl_cons]
    refine ⟨le_trans h1 (min_le_left p x), ?_, ?_⟩
    · intro q hq
      rcases List.mem_cons.mp hq with hq | hq
      · rw [hq]
        exact le_trans h1 (min_le_right p x)
      · exact h2 q hq
    · rcases h3 with h | h
      · rcases min_choice p x with hc | hc
        · left
          rw [h, hc]
        · right
          rw [h, hc]
          exact List.mem_cons_self x xs
      · right
        exact List.mem_cons_of_mem x h

end KoaChart

namespace KoaChart.MiddleLine

open KoaChart.PriceLine

/-- Geometry options of the PriceLinePlugin embedded in the
MiddleLinePlugin (src/unnamed/part_002, third file section): no bullet,
label on the right. -/
def midLineOpts : PLOpts where
  showBullet := false
  positionLeft := false

/-- Mutable state of the MiddleLinePlugin: the stored middle, high and low
prices and the embedded PriceLinePlugin state. -/
structure MidState where
  middlePrice : Option ℚ
  highPrice : Option ℚ
  lowPrice : Option ℚ
  lineState : PLState
deriving DecidableEq, Repr

/-- MiddleLinePlugin._analyzeChartData: over a non-empty series, the high
price is Math.max over the mapped prices, the low price Math.min, and the
middle their average; an empty series yields the null result. -/
def midAnalyze (lastData : List Point) : Option (ℚ × ℚ × ℚ) :=
  match lastData.map Point.price with
  | [] => none
  | p :: ps =>
    some ((ps.foldl max p + ps.foldl min p) / 2, ps.foldl max p, ps.foldl min p)

/-- MiddleLinePlugin.clear: clears the embedded price line. -/
def midClear (s : MidState) : MidState :=
  { s with lineState := plClear s.lineState }

/-- MiddleLinePlugin.render: clears on an empty series; otherwise stores the
analyzed middle, high and low, formats the label and the detail tooltip
(whose percent-of-middle ratio divides by the middle with no zero guard),
pushes price, label and tooltip into the embedded price line and renders
it. -/
def midRender (c : ChartCtx) (s : MidState) : Except String MidState :=
  if c.lastData = [] then Except.ok (midClear s)
  else
    match midAnalyze c.lastData with
    | none => Except.ok (midClear s)
    | some (middle, high, low) =>
      (chartFormatPrice (some middle)).bind fun formattedMiddle =>
      (chartFormatPrice (some (high - low))).bind fun formattedRange =>
      let percentRange := jsMul (jsDiv (high - low) middle) 100
      let fullInfo := "Middle: " ++ formattedMiddle ++ " (Range: " ++ formattedRange ++
        ", " ++ jsValToFixed percentRange 2 ++ "%)"
      (plRender c midLineOpts
        { s.lineState with price := some middle, label := some formattedMiddle,
                           tooltip := some fullInfo }).map fun pl =>
      { s with middlePrice := some middle, highPrice := some high, lowPrice := some low,
               lineState := pl }

/-- Over a non-empty series the middle line render always succeeds and
stores exactly the values produced by the analysis. -/
theorem midRender_fields (c : ChartCtx) (s : MidState) (mid hi lo : ℚ)
    (hA : midAnalyze c.lastData = some (mid, hi, lo)) (hne : c.lastData ≠ []) :
    ∃ t, midRender c s = Except.ok t ∧
      t.middlePrice = some mid ∧ t.highPrice = some hi ∧ t.lowPrice = some lo := by
  rw [midRender, if_neg hne, hA]
  simp only [chartFormatPrice, Except.bind]
  by_cases he : s.lineState.enabled = true
  · rw [plRender]
    simp only [he, Bool.not_true, Bool.false_eq_true, if_false, Except.bind, Except.map]
    exact ⟨_, rfl, rfl, rfl, rfl⟩
  · have he2 : s.lineState.enabled = false := by
      cases hv : s.lineState.enabled
      · rfl
      · exact absurd hv he
    rw [plRender]
    simp only [he2, Bool.not_false, if_true, Except.map]
    exact ⟨_, rfl, rfl, rfl, rfl⟩

end KoaChart.MiddleLine

namespace KoaChart

open PriceLine MiddleLine

/-- C8.  On an empty series the MiddleLinePlugin clears; on a non-empty
series every render succeeds and stores middlePrice = (max + min) / 2 over
the entire series, where max and min are series prices bounding every
series price; the stored middle is the same no matter which state the
render starts from, so repeated renders over the same series keep it
unchanged. -/
theorem c8_middle_line_mid_price (c : ChartCtx) :
    (c.lastData = [] → ∀ s : MidState, midRender c s = Except.ok (midClear s)) ∧
    (c.lastData ≠ [] →
      ∃ M m, M ∈ c.lastData.map Point.price ∧ m ∈ c.lastData.map Point.price ∧
        (∀ p ∈ c.lastData.map Point.price, p ≤ M ∧ m ≤ p) ∧
        ∀ s : MidState, ∃ t, midRender c s = Except.ok t ∧
          t.middlePrice = some ((M + m) / 2) ∧
          t.highPrice = some M ∧ t.lowPrice = some m) := by
  constructor
  · intro he s
    rw [midRender, if_pos he]
  · intro hne
    cases hp : c.lastData.map Point.price with
    | nil =>
      exfalso
      exact hne (List.map_eq_nil_iff.mp hp)
    | cons p ps =>
      have hA : midAnalyze c.lastData
          = some ((ps.foldl max p + ps.foldl min p) / 2, ps.foldl max p, ps.foldl min p) := by
        unfold midAnalyze
        rw [hp]
      obtain ⟨hx1, hx2, hx3⟩ := foldl_max_spec ps p
      obtain ⟨hn1, hn2, hn3⟩ := foldl_min_spec ps p
      refine ⟨ps.foldl max p, ps.foldl min p, ?_, ?_, ?_, ?_⟩
      · rcases hx3 with h | h
        · rw [h]
          exact List.mem_cons_self p ps
        · exact List.mem_cons_of_mem p h
      · rcases hn3 with h | h
        · rw [h]
          exact List.mem_cons_self p ps
        · exact List.mem_cons_of_mem p h
      · intro q hq
        rcases List.mem_cons.mp hq with hq | hq
        · rw [hq]
          exact ⟨hx1, hn1⟩
        · exact ⟨hx2 q hq, hn2 q hq⟩
      · intro s
        exact midRender_fields c s _ _ _ hA hne

/-- State of a freshly constructed MiddleLinePlugin. -/
def midDemoState : MidState where
  middlePrice := none
  highPrice := none
  lowPrice := none
  lineState := (plNew (some 0) none).1

/-- Witness for C8 over the concrete series with prices 100 and 50: the
stored middle price is 75. -/
theorem c8_middle_line_mid_price_witness :
    ∃ t, midRender (CurrentPrice.cpChart [100, 50]) midDemoState = Except.ok t ∧
      t.middlePrice = some 75 := by
  have h := (c8_middle_line_mid_price (CurrentPrice.cpChart [100, 50])).2
    (by simp [CurrentPrice.cpChart])
  obtain ⟨M, m, hM, hm, hbound, hall⟩ := h
  obtain ⟨t, ht, hmid, _, _⟩ := hall midDemoState
  have hM100 : M = 100 := by
    have h1 : (100 : ℚ) ≤ M := (hbound 100 (by simp [CurrentPrice.cpChart])).1
    simp [CurrentPrice.cpChart] at hM
    rcases hM with h | h
    · exact h
    · rw [h] at h1
      norm_num at h1
  have hm50 : m = 50 := by
    have h1 : m ≤ (50 : ℚ) := (hbound 50 (by simp [CurrentPrice.cpChart])).2
    simp [CurrentPrice.cpChart] at hm
    rcases hm with h | h
    · rw [h] at h1
      norm_num at h1
    · exact h
  refine ⟨t, ht, ?_⟩
  rw [hmid, hM100, hm50]
  norm_num

end KoaChart

namespace KoaChart

open PriceRange

/-- Chart whose inverse scale maps pixel 50 to price 0, so a drag whose
bottom edge sits at container y 60 produces bottomPrice = 0. -/
def c9Chart : ChartCtx where
  marginTop := 10
  marginBottom := 10
  marginLeft := 5
  marginRight := 5
  width := 290
  height := 80
  containerTop := 0
  containerHeight := 100
  containerWidth := 800
  scale := fun p => p + 50
  invert := fun y => y - 50
  lastData := []

/-- C9 counterexample.  Not every percent computation is guarded: the
RangeMeasure percent badge divides by bottomPrice with no zero guard, and a
drag whose bottom price is 0 shows the badge with the value Infinity. -/
theorem c9_range_percent_divzero_counterexample :
    (runRange c9Chart (rangeInit true)
      [RangeEv.down 0 20, RangeEv.move 60, RangeEv.up 60]).percentVisible = true ∧
    (runRange c9Chart (rangeInit true)
      [RangeEv.down 0 20, RangeEv.move 60, RangeEv.up 60]).percentValue = JSVal.posInf := by
  constructor <;>
    norm_num [runRange, rangeStep, handleMouseDown, handleMouseMove, handleMouseUp,
      updateRangeDisplay, isInChartArea, rangePercentDiff, jsDiv, jsMul, c9Chart,
      rangeInit, abs_of_nonneg, abs_of_nonpos]

/-- C9 amended.  The shared helper calculatePercentDifference (and its
identical private copy in the PriceGuidePlugin) is guarded: it returns 0
when the reference price is 0 and the relative difference in percent
otherwise; but the RangeMeasure percent span is an unguarded division that
yields Infinity whenever the bottom price is 0 and the span is not. -/
theorem c9_percent_difference_guard (p1 p2 : ℚ) :
    calculatePercentDifference p1 0 = 0 ∧
    (p2 ≠ 0 → calculatePercentDifference p1 p2 = ((p1 - p2) / p2) * 100) ∧
    guideCalculatePercentDifference p1 p2 = calculatePercentDifference p1 p2 ∧
    (p1 ≠ 0 → rangePercentDiff p1 0 = JSVal.posInf) := by
  refine ⟨by simp [calculatePercentDifference], ?_, rfl, ?_⟩
  · intro h
    simp [calculatePercentDifference, h]
  · intro h
    have hpos : (0 : ℚ) < |p1 - 0| := by
      simpa using abs_pos.mpr h
    norm_num [rangePercentDiff, jsDiv, jsMul, hpos, h]

/-- Witness for C9 amended at prices 5 and 2. -/
theorem c9_percent_difference_guard_witness :
    calculatePercentDifference 5 0 = 0 ∧
    calculatePercentDifference 5 2 = ((5 - 2) / 2) * 100 ∧
    rangePercentDiff 5 0 = JSVal.posInf := by
  have h := c9_percent_difference_guard 5 2
  exact ⟨h.1, h.2.1 (by norm_num), h.2.2.2 (by norm_num)⟩

end KoaChart

namespace KoaChart.Server

/-- One element of the formatted response body built by the btc-price route
in src/main.js: timestamp, ISO date string and closing price. -/
structure KlineOut where
  timestamp : Int
  date : String
  price : ℚ
deriving DecidableEq, Repr

/-- A cached response body. -/
abbrev CacheBody := List KlineOut

/-- The cache key of the btc-price route (src/main.js line 32): the
hyphen-joined symbol, interval and limit. -/
def cacheKey (symbol interval : String) (limit : ℕ) : String :=
  symbol ++ "-" ++ interval ++ "-" ++ toString limit

/-- Lookup in the key-value cache (NodeCache.get). -/
def cacheGet (cache : List (String × CacheBody)) (k : String) : Option CacheBody :=
  (cache.find? (fun e => e.1 == k)).map (fun e => e.2)

/-- One btc-price response: the X-Cache header and the body. -/
structure PriceResponse where
  xCache : String
  body : CacheBody
deriving DecidableEq, Repr

/-- The btc-price route handler within the cache TTL: a hit on the cache key
returns the cached body with X-Cache HIT and leaves the cache unchanged; a
miss returns the freshly fetched upstream body with X-Cache MISS and stores
it under the key. -/
def handleBtcPrice (cache : List (String × CacheBody)) (symbol interval : String)
    (limit : ℕ) (upstream : CacheBody) : PriceResponse × List (String × CacheBody) :=
  let key := cacheKey symbol interval limit
  match cacheGet cache key with
  | some cached => ({ xCache := "HIT", body := cached }, cache)
  | none => ({ xCache := "MISS", body := upstream }, cache ++ [(key, upstream)])

end KoaChart.Server

namespace KoaChart

open Server

/-- C10.  The cache key is not injective over the request parameters: the
distinct parameter pairs (BTC-1d, x) and (BTC, 1d-x) share one key, so
within the TTL the second request is served the body cached by the first
with X-Cache HIT, even though its own upstream data differs. -/
theorem c10_cache_key_not_injective :
    cacheKey "BTC-1d" "x" 168 = cacheKey "BTC" "1d-x" 168 ∧
    ("BTC-1d", "x") ≠ (("BTC", "1d-x") : String × String) ∧
    (handleBtcPrice [] "BTC-1d" "x" 168
      [⟨0, "1970-01-01T00:00:00.000Z", 100⟩]).1.xCache = "MISS" ∧
    (handleBtcPrice
      (handleBtcPrice [] "BTC-1d" "x" 168 [⟨0, "1970-01-01T00:00:00.000Z", 100⟩]).2
      "BTC" "1d-x" 168 [⟨1, "1970-01-01T00:00:00.001Z", 200⟩]).1.xCache = "HIT" ∧
    (handleBtcPrice
      (handleBtcPrice [] "BTC-1d" "x" 168 [⟨0, "1970-01-01T00:00:00.000Z", 100⟩]).2
      "BTC" "1d-x" 168 [⟨1, "1970-01-01T00:00:00.001Z", 200⟩]).1.body
      = [⟨0, "1970-01-01T00:00:00.000Z", 100⟩] ∧
    (handleBtcPrice
      (handleBtcPrice [] "BTC-1d" "x" 168 [⟨0, "1970-01-01T00:00:00.000Z", 100⟩]).2
      "BTC" "1d-x" 168 [⟨1, "1970-01-01T00:00:00.001Z", 200⟩]).1.body
      ≠ [⟨1, "1970-01-01T00:00:00.001Z", 200⟩] := by
  refine ⟨by decide, by decide, ?_, ?_, ?_, ?_⟩ <;>
    decide

end KoaChart
